import Mathlib

/-!
# PropVest-AI — verification of the financial calculation engine

This file gives a shallow embedding of `calculateMetrics` (src/unnamed/part_000)
together with the data model of `src/types.ts`, and proves the specified
properties of the engine.

Two embeddings are given, both translated line by line from the source:

* an *exact-arithmetic* model over `ℚ` (the spec's "exactly over exact
  arithmetic" reading), in which division follows Lean's rational-division
  convention (`q / 0 = 0`) and `Math.pow` is modelled at integer exponents;
* a *JS-number* model over `JSNum`, an inductive type of exact rationals
  extended with `NaN`, `+Infinity` and `-Infinity`, whose operations follow
  the IEEE-754 / ECMAScript rules for the non-finite values (no rounding is
  modelled, and negative zero is identified with zero).

The JS-number model is used for the claims that are about `NaN`/`Infinity`
behaviour (the cash-on-cash zero guard, the unguarded cap-rate division, and
the `|| 0` coalescing of `hotTubMaintenance`).
-/

/-- The `Property` interface of `src/types.ts`, parametrised by the scalar
type used for its `number` fields (`ℚ` for the exact model, `JSNum` for the
JS-number model). -/
structure Property (α : Type) where
  id : String
  address : String
  price : α
  images : List String
  bedrooms : α
  bathrooms : α
  sqft : α
  downPaymentPercent : α
  interestRate : α
  loanTermYears : α
  nightlyRate : α
  occupancyRate : α
  propertyTax : α
  insurance : α
  managementFeePercent : α
  snowRemoval : α
  hotTubMaintenance : α
  utilities : α
  maintenance : α
  hoa : α
  otherExpenses : α
  aiDescription : Option String
  fairOfferRecommendation : Option String
  isFavorite : Option Bool
deriving DecidableEq, Repr

/-- The `CalculationResult` interface of `src/types.ts`. -/
structure CalculationResult (α : Type) where
  monthlyMortgage : α
  monthlyIncome : α
  monthlyExpenses : α
  cashFlow : α
  cashOnCashReturn : α
  capRate : α
  totalInvestment : α
deriving DecidableEq, Repr

/-!
## Exact-arithmetic embedding over `ℚ`

Each definition below mirrors one `const` binding of `calculateMetrics`.
-/

/-- `const downPayment = p.price * (p.downPaymentPercent / 100)`. -/
def downPayment (p : Property ℚ) : ℚ := p.price * (p.downPaymentPercent / 100)

/-- `const loanAmount = p.price - downPayment`. -/
def loanAmount (p : Property ℚ) : ℚ := p.price - downPayment p

/-- `const monthlyRate = p.interestRate / 100 / 12`. -/
def monthlyRate (p : Property ℚ) : ℚ := p.interestRate / 100 / 12

/-- `const numberOfPayments = p.loanTermYears * 12`. -/
def numberOfPayments (p : Property ℚ) : ℚ := p.loanTermYears * 12

/-- `Math.pow` in the exact-arithmetic model: at an integer exponent it is
exact integer exponentiation of rationals (with Lean's `0 ^ (-n) = 0`
convention, matching the model's division-by-zero-is-zero convention); a
non-integer exponent is irrational in general and lies outside the rational
model, so that case is mapped to `0`.  No claim exercises a non-integer
exponent: both the code and the spec formula use the same `qpow`. -/
def qpow (b e : ℚ) : ℚ := if e.den = 1 then b ^ e.num else 0

/-- The mortgage branch of `calculateMetrics`: the annuity formula when
`monthlyRate > 0`, otherwise straight-line `loanAmount / numberOfPayments`. -/
def monthlyMortgage (p : Property ℚ) : ℚ :=
  if monthlyRate p > 0 then
    (loanAmount p * monthlyRate p * qpow (1 + monthlyRate p) (numberOfPayments p)) /
      (qpow (1 + monthlyRate p) (numberOfPayments p) - 1)
  else
    loanAmount p / numberOfPayments p

/-- `const monthlyIncome = (p.nightlyRate * 365 * (p.occupancyRate / 100)) / 12`. -/
def monthlyIncome (p : Property ℚ) : ℚ :=
  p.nightlyRate * 365 * (p.occupancyRate / 100) / 12

/-- `const managementFee = monthlyIncome * (p.managementFeePercent / 100)`. -/
def managementFee (p : Property ℚ) : ℚ :=
  monthlyIncome p * (p.managementFeePercent / 100)

/-- The expense sum of `calculateMetrics`.  `p.hotTubMaintenance || 0` is a
JavaScript falsy-coalescing; in the exact model the only falsy rational is
`0`, so it is embedded as the conditional below (`NaN`, the other falsy
number, only exists in the JS-number model). -/
def monthlyExpenses (p : Property ℚ) : ℚ :=
  managementFee p +
  p.propertyTax / 12 +
  p.insurance / 12 +
  p.snowRemoval +
  (if p.hotTubMaintenance = 0 then 0 else p.hotTubMaintenance) +
  p.utilities +
  p.maintenance +
  p.hoa +
  p.otherExpenses

/-- `const cashFlow = monthlyIncome - monthlyExpenses - monthlyMortgage`. -/
def cashFlow (p : Property ℚ) : ℚ :=
  monthlyIncome p - monthlyExpenses p - monthlyMortgage p

/-- `const annualCashFlow = cashFlow * 12`. -/
def annualCashFlow (p : Property ℚ) : ℚ := cashFlow p * 12

/-- `const closingCosts = p.price * 0.03`. -/
def closingCosts (p : Property ℚ) : ℚ := p.price * (3 / 100)

/-- `const totalInvestment = downPayment + closingCosts`. -/
def totalInvestment (p : Property ℚ) : ℚ := downPayment p + closingCosts p

/-- `const cashOnCashReturn = totalInvestment > 0 ? (annualCashFlow / totalInvestment) * 100 : 0`. -/
def cashOnCashReturn (p : Property ℚ) : ℚ :=
  if totalInvestment p > 0 then (annualCashFlow p / totalInvestment p) * 100 else 0

/-- `const annualNOI = (monthlyIncome - monthlyExpenses) * 12`. -/
def annualNOI (p : Property ℚ) : ℚ := (monthlyIncome p - monthlyExpenses p) * 12

/-- `const capRate = (annualNOI / p.price) * 100` — unguarded division. -/
def capRate (p : Property ℚ) : ℚ := annualNOI p / p.price * 100

/-- `calculateMetrics` from src/unnamed/part_000, exact-arithmetic model. -/
def calculateMetrics (p : Property ℚ) : CalculationResult ℚ :=
  { monthlyMortgage := monthlyMortgage p
    monthlyIncome := monthlyIncome p
    monthlyExpenses := monthlyExpenses p
    cashFlow := cashFlow p
    cashOnCashReturn := cashOnCashReturn p
    capRate := capRate p
    totalInvestment := totalInvestment p }

/-!
## JS-number model

`JSNum` is an exact model of ECMAScript numbers: a finite value is an exact
rational (rounding is not modelled), and the special values `NaN`,
`+Infinity` and `-Infinity` follow the IEEE-754 rules.  Negative zero is
identified with zero (no claim depends on the sign of zero).
-/

/-- An ECMAScript number: an exact rational, `+Infinity`, `-Infinity` or `NaN`. -/
inductive JSNum : Type where
  | finite : ℚ → JSNum
  | posInf : JSNum
  | negInf : JSNum
  | nan : JSNum
deriving DecidableEq, Repr

namespace JSNum

/-- IEEE negation: flips the sign of a finite value and of the infinities,
and preserves `NaN`. -/
def neg : JSNum → JSNum
  | finite q => finite (-q)
  | posInf => negInf
  | negInf => posInf
  | nan => nan

/-- IEEE addition: `NaN` propagates, opposite infinities give `NaN`, an
infinity absorbs any finite value, finite values add exactly. -/
def add : JSNum → JSNum → JSNum
  | nan, _ => nan
  | _, nan => nan
  | posInf, negInf => nan
  | negInf, posInf => nan
  | posInf, _ => posInf
  | _, posInf => posInf
  | negInf, _ => negInf
  | _, negInf => negInf
  | finite a, finite b => finite (a + b)

/-- IEEE subtraction, `a - b = a + (-b)`. -/
def sub (a b : JSNum) : JSNum := add a (neg b)

/-- IEEE multiplication: `NaN` propagates, `Infinity * 0 = NaN`, otherwise
an infinity times a nonzero value is an infinity of the product sign. -/
def mul : JSNum → JSNum → JSNum
  | nan, _ => nan
  | _, nan => nan
  | posInf, posInf => posInf
  | posInf, negInf => negInf
  | negInf, posInf => negInf
  | negInf, negInf => posInf
  | posInf, finite q => if 0 < q then posInf else if q < 0 then negInf else nan
  | finite q, posInf => if 0 < q then posInf else if q < 0 then negInf else nan
  | negInf, finite q => if 0 < q then negInf else if q < 0 then posInf else nan
  | finite q, negInf => if 0 < q then negInf else if q < 0 then posInf else nan
  | finite a, finite b => finite (a * b)

/-- IEEE division: `NaN` propagates, `Infinity / Infinity = NaN`, a finite
value over an infinity is `0`, a nonzero finite value over `0` is a signed
infinity (the zero divisor is `+0`: negative zero is not modelled), and
`0 / 0 = NaN`. -/
def div : JSNum → JSNum → JSNum
  | nan, _ => nan
  | _, nan => nan
  | posInf, posInf => nan
  | posInf, negInf => nan
  | negInf, posInf => nan
  | negInf, negInf => nan
  | posInf, finite q => if q < 0 then negInf else posInf
  | negInf, finite q => if q < 0 then posInf else negInf
  | finite _, posInf => finite 0
  | finite _, negInf => finite 0
  | finite a, finite b =>
      if b = 0 then
        if a = 0 then nan else if 0 < a then posInf else negInf
      else finite (a / b)

/-- The ECMAScript `<` comparison: any comparison with `NaN` is `false`. -/
def lt : JSNum → JSNum → Bool
  | nan, _ => false
  | _, nan => false
  | negInf, negInf => false
  | negInf, _ => true
  | _, negInf => false
  | posInf, _ => false
  | finite _, posInf => true
  | finite a, finite b => a < b

/-- A number is falsy in JavaScript iff it is `0` (or `-0`, identified with
`0` here) or `NaN`. -/
def falsy : JSNum → Bool
  | finite q => q = 0
  | nan => true
  | _ => false

/-- The JavaScript `x || y` on numbers: `y` if `x` is falsy, else `x`. -/
def orDefault (x y : JSNum) : JSNum := if falsy x then y else x

/-- `Math.pow` on JS numbers, per the ECMAScript specification: exponent
`±0` gives `1` (even for a `NaN` base), a `NaN` operand otherwise gives
`NaN`, infinite operands compare the base magnitude with `1`, and a finite
base at a finite integer exponent is exact rational exponentiation (with
`Math.pow(0, -n) = Infinity`).  A positive finite base at a finite
non-integer exponent is irrational in general and lies outside the rational
model; that case is mapped to `NaN` (JavaScript would return a finite real)
— no claim exercises it, and both sides of every pow equation below use
this same function.  A negative finite base at a non-integer exponent is
`NaN` in JavaScript itself. -/
def pow (b e : JSNum) : JSNum :=
  match e with
  | finite q =>
      if q = 0 then finite 1
      else
        match b with
        | nan => nan
        | posInf => if 0 < q then posInf else finite 0
        | negInf =>
            if 0 < q then (if q.den = 1 ∧ q.num % 2 = 1 then negInf else posInf)
            else finite 0
        | finite a =>
            if q.den = 1 then
              if a = 0 then (if 0 < q.num then finite 0 else posInf)
              else finite (a ^ q.num)
            else
              if a = 0 then (if 0 < q then finite 0 else posInf)
              else nan
  | nan => nan
  | posInf =>
      match b with
      | nan => nan
      | posInf => posInf
      | negInf => posInf
      | finite a => if 1 < |a| then posInf else if |a| = 1 then nan else finite 0
  | negInf =>
      match b with
      | nan => nan
      | posInf => finite 0
      | negInf => finite 0
      | finite a => if 1 < |a| then finite 0 else if |a| = 1 then nan else posInf

/-- A JS number is finite iff it is neither `NaN` nor an infinity. -/
def isFinite : JSNum → Bool
  | finite _ => true
  | _ => false

end JSNum

instance : Add JSNum := ⟨JSNum.add⟩

instance : Sub JSNum := ⟨JSNum.sub⟩

instance : Mul JSNum := ⟨JSNum.mul⟩

instance : Div JSNum := ⟨JSNum.div⟩

instance : Neg JSNum := ⟨JSNum.neg⟩

instance : Pow JSNum JSNum := ⟨JSNum.pow⟩

instance (n : Nat) : OfNat JSNum n := ⟨JSNum.finite (OfNat.ofNat n)⟩

/-!
## JS-number embedding of `calculateMetrics`

The same line-by-line translation of src/unnamed/part_000, this time over
`JSNum`; comparisons use `JSNum.lt` (ECMAScript `<`, false on `NaN`) and
`p.hotTubMaintenance || 0` is `JSNum.orDefault`.
-/

namespace JS

/-- `const downPayment = p.price * (p.downPaymentPercent / 100)`. -/
def downPayment (p : Property JSNum) : JSNum := p.price * (p.downPaymentPercent / 100)

/-- `const loanAmount = p.price - downPayment`. -/
def loanAmount (p : Property JSNum) : JSNum := p.price - downPayment p

/-- `const monthlyRate = p.interestRate / 100 / 12`. -/
def monthlyRate (p : Property JSNum) : JSNum := p.interestRate / 100 / 12

/-- `const numberOfPayments = p.loanTermYears * 12`. -/
def numberOfPayments (p : Property JSNum) : JSNum := p.loanTermYears * 12

/-- The mortgage branch: `monthlyRate > 0` is ECMAScript `<` on `(0, rate)`. -/
def monthlyMortgage (p : Property JSNum) : JSNum :=
  if JSNum.lt 0 (monthlyRate p) then
    (loanAmount p * monthlyRate p * (1 + monthlyRate p) ^ numberOfPayments p) /
      ((1 + monthlyRate p) ^ numberOfPayments p - 1)
  else
    loanAmount p / numberOfPayments p

/-- `const monthlyIncome = (p.nightlyRate * 365 * (p.occupancyRate / 100)) / 12`. -/
def monthlyIncome (p : Property JSNum) : JSNum :=
  p.nightlyRate * 365 * (p.occupancyRate / 100) / 12

/-- `const managementFee = monthlyIncome * (p.managementFeePercent / 100)`. -/
def managementFee (p : Property JSNum) : JSNum :=
  monthlyIncome p * (p.managementFeePercent / 100)

/-- The expense sum; `(p.hotTubMaintenance || 0)` is falsy-coalescing. -/
def monthlyExpenses (p : Property JSNum) : JSNum :=
  managementFee p +
  p.propertyTax / 12 +
  p.insurance / 12 +
  p.snowRemoval +
  JSNum.orDefault p.hotTubMaintenance 0 +
  p.utilities +
  p.maintenance +
  p.hoa +
  p.otherExpenses

/-- `const cashFlow = monthlyIncome - monthlyExpenses - monthlyMortgage`. -/
def cashFlow (p : Property JSNum) : JSNum :=
  monthlyIncome p - monthlyExpenses p - monthlyMortgage p

/-- `const annualCashFlow = cashFlow * 12`. -/
def annualCashFlow (p : Property JSNum) : JSNum := cashFlow p * 12

/-- `const closingCosts = p.price * 0.03` (`0.03` is exactly `3/100` here;
the double rounding of the literal is not modelled). -/
def closingCosts (p : Property JSNum) : JSNum := p.price * JSNum.finite (3 / 100)

/-- `const totalInvestment = downPayment + closingCosts`. -/
def totalInvestment (p : Property JSNum) : JSNum := downPayment p + closingCosts p

/-- `const cashOnCashReturn = totalInvestment > 0 ? (annualCashFlow / totalInvestment) * 100 : 0`. -/
def cashOnCashReturn (p : Property JSNum) : JSNum :=
  if JSNum.lt 0 (totalInvestment p) then (annualCashFlow p / totalInvestment p) * 100 else 0

/-- `const annualNOI = (monthlyIncome - monthlyExpenses) * 12`. -/
def annualNOI (p : Property JSNum) : JSNum := (monthlyIncome p - monthlyExpenses p) * 12

/-- `const capRate = (annualNOI / p.price) * 100` — unguarded division. -/
def capRate (p : Property JSNum) : JSNum := annualNOI p / p.price * 100

/-- `calculateMetrics` from src/unnamed/part_000, JS-number model. -/
def calculateMetrics (p : Property JSNum) : CalculationResult JSNum :=
  { monthlyMortgage := monthlyMortgage p
    monthlyIncome := monthlyIncome p
    monthlyExpenses := monthlyExpenses p
    cashFlow := cashFlow p
    cashOnCashReturn := cashOnCashReturn p
    capRate := capRate p
    totalInvestment := totalInvestment p }

end JS

/-!
## Concrete properties used to instantiate witnesses
-/

/-- Map the scalar fields of a property (used to lift a rational test
property into the JS-number model). -/
def Property.mapNum (f : α → β) (p : Property α) : Property β :=
  { id := p.id, address := p.address, price := f p.price, images := p.images
    bedrooms := f p.bedrooms, bathrooms := f p.bathrooms, sqft := f p.sqft
    downPaymentPercent := f p.downPaymentPercent, interestRate := f p.interestRate
    loanTermYears := f p.loanTermYears, nightlyRate := f p.nightlyRate
    occupancyRate := f p.occupancyRate, propertyTax := f p.propertyTax
    insurance := f p.insurance, managementFeePercent := f p.managementFeePercent
    snowRemoval := f p.snowRemoval, hotTubMaintenance := f p.hotTubMaintenance
    utilities := f p.utilities, maintenance := f p.maintenance, hoa := f p.hoa
    otherExpenses := f p.otherExpenses, aiDescription := p.aiDescription
    fairOfferRecommendation := p.fairOfferRecommendation, isFavorite := p.isFavorite }

/-- A representative chalet listing: 6% loan over 30 years, 20% down,
$200/night at 60% occupancy (the income scenario of the spec). -/
def chalet : Property ℚ :=
  { id := "p1", address := "1 Alpine Way", price := 500000, images := []
    bedrooms := 3, bathrooms := 2, sqft := 1500
    downPaymentPercent := 20, interestRate := 6, loanTermYears := 30
    nightlyRate := 200, occupancyRate := 60
    propertyTax := 2400, insurance := 1200, managementFeePercent := 10
    snowRemoval := 50, hotTubMaintenance := 80, utilities := 150
    maintenance := 100, hoa := 0, otherExpenses := 25
    aiDescription := none, fairOfferRecommendation := none, isFavorite := none }

/-- Scenario B of the spec: zero-rate loan, 10 years, $120,000 fully paid
down. -/
def scenarioB : Property ℚ :=
  { chalet with interestRate := 0, loanTermYears := 10, price := 120000,
                downPaymentPercent := 100 }

/-- A negative-price listing: the input refuting the unconditional
`loanAmount ≥ 0` claim. -/
def negPriceListing : Property ℚ :=
  { chalet with price := -100000, downPaymentPercent := 50 }

/-- A negative-rate loan (implicit straight-line branch). -/
def negRateListing : Property ℚ := { chalet with interestRate := -1 }

/-- The chalet in the JS-number model. -/
def chaletJS : Property JSNum := chalet.mapNum JSNum.finite

/-- Scenario C of the spec: `price = 0` (and nothing down). -/
def zeroPriceListing : Property JSNum :=
  { chaletJS with price := JSNum.finite 0, downPaymentPercent := JSNum.finite 0 }

/-- A listing whose `hotTubMaintenance` is `NaN`. -/
def nanHotTubListing : Property JSNum :=
  { chaletJS with hotTubMaintenance := JSNum.nan }

/-- A listing whose `propertyTax` is `NaN`. -/
def nanTaxListing : Property JSNum :=
  { chaletJS with propertyTax := JSNum.nan }

/-!
## Claims about the exact-arithmetic model
-/

/-- C1: whenever `monthlyRate = interestRate/100/12` is positive,
`calculateMetrics` returns as `monthlyMortgage` the standard annuity payment
`loanAmount * r * (1+r)^n / ((1+r)^n - 1)` with
`loanAmount = price - price * downPaymentPercent/100`,
`r = interestRate/100/12` and `n = loanTermYears * 12`. -/
theorem monthlyMortgage_annuity_of_pos_rate (p : Property ℚ)
    (h : 0 < monthlyRate p) :
    (calculateMetrics p).monthlyMortgage =
      (p.price - p.price * (p.downPaymentPercent / 100)) * (p.interestRate / 100 / 12) *
          qpow (1 + p.interestRate / 100 / 12) (p.loanTermYears * 12) /
        (qpow (1 + p.interestRate / 100 / 12) (p.loanTermYears * 12) - 1) := by
  show monthlyMortgage p = _
  unfold monthlyMortgage
  rw [if_pos h]
  unfold loanAmount downPayment monthlyRate numberOfPayments
  rfl

/-- Witness for C1: the chalet's 6% loan has a positive monthly rate and its
mortgage payment is given by the annuity formula. -/
theorem monthlyMortgage_annuity_of_pos_rate_witness :
    0 < monthlyRate chalet ∧
    (calculateMetrics chalet).monthlyMortgage =
      (chalet.price - chalet.price * (chalet.downPaymentPercent / 100)) *
          (chalet.interestRate / 100 / 12) *
          qpow (1 + chalet.interestRate / 100 / 12) (chalet.loanTermYears * 12) /
        (qpow (1 + chalet.interestRate / 100 / 12) (chalet.loanTermYears * 12) - 1) :=
  ⟨by norm_num [monthlyRate, chalet],
    monthlyMortgage_annuity_of_pos_rate chalet (by norm_num [monthlyRate, chalet])⟩

/-- C2: for a zero interest rate the mortgage is straight-line,
`loanAmount / (loanTermYears * 12)`, with no compounding. -/
theorem monthlyMortgage_straight_line_zero_rate (p : Property ℚ)
    (h : p.interestRate = 0) :
    (calculateMetrics p).monthlyMortgage = loanAmount p / (p.loanTermYears * 12) := by
  have hr : monthlyRate p = 0 := by rw [monthlyRate, h]; norm_num
  show monthlyMortgage p = _
  unfold monthlyMortgage
  rw [if_neg (by rw [hr]; exact lt_irrefl 0)]
  rfl

/-- Witness for C2, scenario B of the spec: `interestRate = 0`,
`loanTermYears = 10`, `price = 120000`, `downPaymentPercent = 100` gives
`loanAmount = 0` and a zero straight-line payment. -/
theorem monthlyMortgage_straight_line_zero_rate_witness :
    loanAmount scenarioB = 0 ∧ (calculateMetrics scenarioB).monthlyMortgage = 0 := by
  refine ⟨by norm_num [loanAmount, downPayment, scenarioB, chalet], ?_⟩
  rw [monthlyMortgage_straight_line_zero_rate scenarioB rfl]
  norm_num [loanAmount, downPayment, scenarioB, chalet]

/-- C3: the monthly income is the expected annual short-term-rental revenue
spread over 12 months, `nightlyRate * 365 * (occupancyRate/100) / 12`; at
$200/night and 60% occupancy this is $3650. -/
theorem monthlyIncome_formula :
    (∀ p : Property ℚ,
      (calculateMetrics p).monthlyIncome =
        p.nightlyRate * 365 * (p.occupancyRate / 100) / 12) ∧
    (calculateMetrics chalet).monthlyIncome = 3650 :=
  ⟨fun _ => rfl, by norm_num [calculateMetrics, monthlyIncome, chalet]⟩

/-- C4: the monthly expenses are the management fee on revenue plus the
monthly shares of the annual tax and insurance plus the remaining monthly
expense fields (with `hotTubMaintenance` coalesced to `0` when falsy), and
they do not include the mortgage: they are unchanged under any change of
the loan parameters. -/
theorem monthlyExpenses_formula (p : Property ℚ) (i y d : ℚ) :
    ((calculateMetrics p).monthlyExpenses =
      (calculateMetrics p).monthlyIncome * (p.managementFeePercent / 100) +
        p.propertyTax / 12 + p.insurance / 12 + p.snowRemoval +
        (if p.hotTubMaintenance = 0 then 0 else p.hotTubMaintenance) +
        p.utilities + p.maintenance + p.hoa + p.otherExpenses) ∧
    (calculateMetrics
        { p with interestRate := i, loanTermYears := y, downPaymentPercent := d
        }).monthlyExpenses =
      (calculateMetrics p).monthlyExpenses :=
  ⟨rfl, rfl⟩

/-- C5: the accounting identity of the result — cash flow plus debt service
plus operating expenses equals income, exactly, over exact arithmetic. -/
theorem cashFlow_accounting_identity (p : Property ℚ) :
    (calculateMetrics p).cashFlow + (calculateMetrics p).monthlyMortgage +
        (calculateMetrics p).monthlyExpenses =
      (calculateMetrics p).monthlyIncome := by
  show cashFlow p + monthlyMortgage p + monthlyExpenses p = monthlyIncome p
  unfold cashFlow
  ring

/-- C8, as stated, is false: a negative price with a 50% down payment has
`downPaymentPercent ∈ [0,100]` but a negative loan amount. -/
theorem loanAmount_nonneg_counterexample :
    0 ≤ negPriceListing.downPaymentPercent ∧
    negPriceListing.downPaymentPercent ≤ 100 ∧
    loanAmount negPriceListing < 0 := by
  refine ⟨?_, ?_, ?_⟩ <;>
    norm_num [loanAmount, downPayment, negPriceListing, chalet]

/-- C8 amended: for a nonnegative price and `downPaymentPercent ∈ [0,100]`,
the loan amount `price * (1 - downPaymentPercent/100)` is nonnegative. -/
theorem loanAmount_nonneg (p : Property ℚ) (hp : 0 ≤ p.price)
    (h0 : 0 ≤ p.downPaymentPercent) (h1 : p.downPaymentPercent ≤ 100) :
    0 ≤ loanAmount p := by
  unfold loanAmount downPayment
  have h : p.price - p.price * (p.downPaymentPercent / 100) =
      p.price * ((100 - p.downPaymentPercent) / 100) := by ring
  rw [h]
  exact mul_nonneg hp (div_nonneg (by linarith) (by norm_num))

/-- Witness for the amended C8: the chalet has a nonnegative price, a down
payment percentage in range, and a nonnegative loan amount. -/
theorem loanAmount_nonneg_witness :
    0 ≤ chalet.price ∧ 0 ≤ chalet.downPaymentPercent ∧
    chalet.downPaymentPercent ≤ 100 ∧ 0 ≤ loanAmount chalet :=
  ⟨by norm_num [chalet], by norm_num [chalet], by norm_num [chalet],
    loanAmount_nonneg chalet (by norm_num [chalet]) (by norm_num [chalet])
      (by norm_num [chalet])⟩

/-- C9: a negative interest rate gives a nonpositive monthly rate, so the
`monthlyRate > 0` branch test fails and the engine silently falls back to
the straight-line payment `loanAmount / (loanTermYears * 12)` rather than
the annuity formula. -/
theorem monthlyMortgage_straight_line_neg_rate (p : Property ℚ)
    (h : p.interestRate < 0) :
    monthlyRate p ≤ 0 ∧
    (calculateMetrics p).monthlyMortgage = loanAmount p / (p.loanTermYears * 12) := by
  have hr : monthlyRate p ≤ 0 := by
    unfold monthlyRate
    rw [div_div]
    exact le_of_lt (div_neg_of_neg_of_pos h (by norm_num))
  refine ⟨hr, ?_⟩
  show monthlyMortgage p = _
  unfold monthlyMortgage
  rw [if_neg (not_lt.mpr hr)]
  rfl

/-- Witness for C9: a −1% loan is priced straight-line. -/
theorem monthlyMortgage_straight_line_neg_rate_witness :
    monthlyRate negRateListing ≤ 0 ∧
    (calculateMetrics negRateListing).monthlyMortgage =
      loanAmount negRateListing / (negRateListing.loanTermYears * 12) :=
  monthlyMortgage_straight_line_neg_rate negRateListing
    (by norm_num [negRateListing, chalet])

/-!
## Claims about the JS-number model
-/

@[simp]
theorem JSNum.nan_add (x : JSNum) : JSNum.nan + x = JSNum.nan := by
  cases x <;> rfl

@[simp]
theorem JSNum.add_nan (x : JSNum) : x + JSNum.nan = JSNum.nan := by
  cases x <;> rfl

@[simp]
theorem JSNum.nan_mul (x : JSNum) : JSNum.nan * x = JSNum.nan := by
  cases x <;> rfl

@[simp]
theorem JSNum.mul_nan (x : JSNum) : x * JSNum.nan = JSNum.nan := by
  cases x <;> rfl

@[simp]
theorem JSNum.nan_div (x : JSNum) : JSNum.nan / x = JSNum.nan := by
  cases x <;> rfl

@[simp]
theorem JSNum.div_nan (x : JSNum) : x / JSNum.nan = JSNum.nan := by
  cases x <;> rfl

/-- Division by (positive) zero never produces a finite JS number: it is
`NaN` for a zero or `NaN` numerator and a signed infinity otherwise. -/
theorem JSNum.div_zero_not_finite (x : JSNum) :
    JSNum.isFinite (x / JSNum.finite 0) = false := by
  cases x with
  | finite a =>
      show JSNum.isFinite (JSNum.div (JSNum.finite a) (JSNum.finite 0)) = false
      simp only [JSNum.div, if_pos rfl]
      split_ifs <;> rfl
  | posInf => rfl
  | negInf => rfl
  | nan => rfl

/-- Multiplying a non-finite JS number by `100` keeps it non-finite. -/
theorem JSNum.mul_hundred_not_finite (x : JSNum)
    (h : JSNum.isFinite x = false) :
    JSNum.isFinite (x * JSNum.finite 100) = false := by
  cases x with
  | finite a => exact absurd h (by simp [JSNum.isFinite])
  | posInf =>
      show JSNum.isFinite (JSNum.mul JSNum.posInf (JSNum.finite 100)) = false
      simp only [JSNum.mul]
      rw [if_pos (by norm_num : (0 : ℚ) < 100)]
      rfl
  | negInf =>
      show JSNum.isFinite (JSNum.mul JSNum.negInf (JSNum.finite 100)) = false
      simp only [JSNum.mul]
      rw [if_pos (by norm_num : (0 : ℚ) < 100)]
      rfl
  | nan => rfl

/-- C6: the JS-number engine computes
`totalInvestment = downPayment + price * 0.03` and guards the cash-on-cash
return: it is `(annualCashFlow / totalInvestment) * 100` when the
`totalInvestment > 0` test succeeds, and exactly `0` — a finite zero, not
`NaN` or an infinity — whenever the test fails, in particular whenever
`totalInvestment` is a finite zero or negative value. -/
theorem cashOnCashReturn_zero_guard (p : Property JSNum) :
    (JS.calculateMetrics p).totalInvestment =
      JS.downPayment p + p.price * JSNum.finite (3 / 100) ∧
    (JSNum.lt 0 (JS.totalInvestment p) = true →
      (JS.calculateMetrics p).cashOnCashReturn =
        JS.cashFlow p * 12 / JS.totalInvestment p * 100) ∧
    (JSNum.lt 0 (JS.totalInvestment p) = false →
      (JS.calculateMetrics p).cashOnCashReturn = JSNum.finite 0) ∧
    (∀ t : ℚ, JS.totalInvestment p = JSNum.finite t → t ≤ 0 →
      (JS.calculateMetrics p).cashOnCashReturn = JSNum.finite 0) := by
  have hguard : ∀ h : JSNum.lt 0 (JS.totalInvestment p) = false,
      (JS.calculateMetrics p).cashOnCashReturn = JSNum.finite 0 := by
    intro h
    show JS.cashOnCashReturn p = JSNum.finite 0
    unfold JS.cashOnCashReturn
    rw [if_neg (by simp [h])]
    rfl
  refine ⟨rfl, ?_, hguard, ?_⟩
  · intro h
    show JS.cashOnCashReturn p = _
    unfold JS.cashOnCashReturn
    rw [if_pos h]
    rfl
  · intro t ht hle
    refine hguard ?_
    rw [ht]
    show decide ((0 : ℚ) < t) = false
    simpa using not_lt.mpr hle

/-- Witness for C6: with `downPaymentPercent = 0` and `price = 0` the total
investment is a finite zero and the cash-on-cash return is exactly `0`. -/
theorem cashOnCashReturn_zero_guard_witness :
    JS.totalInvestment zeroPriceListing = JSNum.finite 0 ∧
    (JS.calculateMetrics zeroPriceListing).cashOnCashReturn = JSNum.finite 0 := by
  have hti : JS.totalInvestment zeroPriceListing = JSNum.finite 0 := by
    show JSNum.add (JSNum.mul (JSNum.finite 0) (JSNum.div (JSNum.finite 0) (JSNum.finite 100)))
        (JSNum.mul (JSNum.finite 0) (JSNum.finite (3 / 100))) = JSNum.finite 0
    norm_num [JSNum.mul, JSNum.add, JSNum.div]
  exact ⟨hti,
    (cashOnCashReturn_zero_guard zeroPriceListing).2.2.2 0 hti le_rfl⟩

/-- C7: the engine is a total function (this embedding of it is a Lean
function, and no operation of the JS-number model signals an error), the
cap rate is computed by the unguarded formula
`((monthlyIncome - monthlyExpenses) * 12 / price) * 100`, and at
`price = 0` that division makes `capRate` non-finite (`Infinity`, `-Infinity`
or `NaN`) instead of raising. -/
theorem capRate_total_unguarded (p : Property JSNum) :
    (JS.calculateMetrics p).capRate =
      (JS.monthlyIncome p - JS.monthlyExpenses p) * 12 / p.price * 100 ∧
    (p.price = JSNum.finite 0 →
      JSNum.isFinite ((JS.calculateMetrics p).capRate) = false) := by
  refine ⟨rfl, ?_⟩
  intro h
  show JSNum.isFinite (JS.capRate p) = false
  unfold JS.capRate JS.annualNOI
  rw [h]
  exact JSNum.mul_hundred_not_finite _ (JSNum.div_zero_not_finite _)

/-- Witness for C7, scenario C of the spec: at `price = 0` the cap rate is
not a finite number (and the call still returns, rather than throwing). -/
theorem capRate_total_unguarded_witness :
    JSNum.isFinite ((JS.calculateMetrics zeroPriceListing).capRate) = false :=
  (capRate_total_unguarded zeroPriceListing).2 rfl

/-- C10: a falsy (`0` or `NaN`) `hotTubMaintenance` is coalesced to `0` by
`|| 0`, so the whole result equals the result for the same listing with
`hotTubMaintenance = 0` — a `NaN` hot-tub cost does not poison the result —
whereas a `NaN` in any of the other expense fields makes `monthlyExpenses`
`NaN`.  (An absent field is ruled out by the `Property` type itself, which
declares `hotTubMaintenance` as a required numeric field.) -/
theorem hotTub_falsy_coalescing (p : Property JSNum) :
    ((p.hotTubMaintenance = JSNum.finite 0 ∨ p.hotTubMaintenance = JSNum.nan) →
      JS.calculateMetrics p =
        JS.calculateMetrics { p with hotTubMaintenance := JSNum.finite 0 }) ∧
    (p.propertyTax = JSNum.nan →
      (JS.calculateMetrics p).monthlyExpenses = JSNum.nan) ∧
    (p.insurance = JSNum.nan →
      (JS.calculateMetrics p).monthlyExpenses = JSNum.nan) ∧
    (p.managementFeePercent = JSNum.nan →
      (JS.calculateMetrics p).monthlyExpenses = JSNum.nan) ∧
    (p.snowRemoval = JSNum.nan →
      (JS.calculateMetrics p).monthlyExpenses = JSNum.nan) ∧
    (p.utilities = JSNum.nan →
      (JS.calculateMetrics p).monthlyExpenses = JSNum.nan) ∧
    (p.maintenance = JSNum.nan →
      (JS.calculateMetrics p).monthlyExpenses = JSNum.nan) ∧
    (p.hoa = JSNum.nan →
      (JS.calculateMetrics p).monthlyExpenses = JSNum.nan) ∧
    (p.otherExpenses = JSNum.nan →
      (JS.calculateMetrics p).monthlyExpenses = JSNum.nan) := by
  refine ⟨?_, ?_, ?_, ?_, ?_, ?_, ?_, ?_, ?_⟩
  · intro h
    have hor : JSNum.orDefault p.hotTubMaintenance (0 : JSNum) = JSNum.finite 0 := by
      rcases h with h | h <;> rw [h] <;> rfl
    have hor0 : JSNum.orDefault (JSNum.finite 0) (0 : JSNum) = JSNum.finite 0 := rfl
    simp only [JS.calculateMetrics, JS.monthlyMortgage, JS.monthlyRate,
      JS.numberOfPayments, JS.loanAmount, JS.downPayment, JS.monthlyIncome,
      JS.managementFee, JS.monthlyExpenses, JS.cashFlow, JS.annualCashFlow,
      JS.closingCosts, JS.totalInvestment, JS.cashOnCashReturn, JS.annualNOI,
      JS.capRate, hor, hor0]
  all_goals
    intro h
    show JS.monthlyExpenses p = JSNum.nan
    unfold JS.monthlyExpenses JS.managementFee
    rw [h]
    simp

/-- Witness for C10: a `NaN` hot-tub cost computes the same result as a
zero one, while a `NaN` property tax makes the monthly expenses `NaN`. -/
theorem hotTub_falsy_coalescing_witness :
    JS.calculateMetrics nanHotTubListing =
      JS.calculateMetrics { nanHotTubListing with hotTubMaintenance := JSNum.finite 0 } ∧
    (JS.calculateMetrics nanTaxListing).monthlyExpenses = JSNum.nan :=
  ⟨(hotTub_falsy_coalescing nanHotTubListing).1 (Or.inr rfl),
    (hotTub_falsy_coalescing nanTaxListing).2.1 rfl⟩
